import Mathlib

/-!
Verification of the csi-gcs mutating admission webhook core
(`pkg/webhook/server.go`, `pkg/webhook/storageclasses.go`).

We shallowly embed:
  * the membership cache `driverStorageClassesSet` (a Go `map[string]struct{}`
    guarded by a `sync.RWMutex`; the sequential set semantics are embedded,
    the lock is a concurrency artefact);
  * the storage-class watcher callbacks `AddFunc` / `UpdateFunc` / `DeleteFunc`;
  * the admission HTTP handler `handleInjectDriverReadySelector`.

The helper predicates `podHasDriverReadyLabelSelectorOrAffinity` and
`podHasCsiGCSVolume` are defined in a file of the repository that is not part
of the sources under verification; the handler is therefore parameterised by
arbitrary Boolean-valued functions standing for them, and where a claim needs
the actual node-selector test a separate definition modelled from the spec is
used and named explicitly.
-/

namespace CsiGcs

/-- Embedding of `driverStorageClassesSet` (storageclasses.go): a Go
`map[string]struct{}` used as a set of storage-class names.  The map is
represented by its list of keys. -/
structure driverStorageClassesSet where
  classes : List String
deriving Repr, DecidableEq

/-- `(s *driverStorageClassesSet) has(className string) bool`: membership
lookup (`_, exist := s.classes[className]`). -/
def driverStorageClassesSet.has (s : driverStorageClassesSet) (className : String) : Bool :=
  s.classes.contains className

/-- `(s *driverStorageClassesSet) add(className string)`: Go map insert
`s.classes[className] = struct{}{}` — a no-op when the key is present,
otherwise the key is added. -/
def driverStorageClassesSet.add (s : driverStorageClassesSet) (className : String) :
    driverStorageClassesSet :=
  if s.classes.contains className then s else ⟨className :: s.classes⟩

/-- `(s *driverStorageClassesSet) remove(className string)`: Go map delete
`delete(s.classes, className)` — removes the key when present, no-op
otherwise. -/
def driverStorageClassesSet.remove (s : driverStorageClassesSet) (className : String) :
    driverStorageClassesSet :=
  ⟨s.classes.filter (fun m => m != className)⟩

/-- The empty cache, as built in `NewServer` (`make(map[string]struct{})`). -/
def emptySet : driverStorageClassesSet := ⟨[]⟩

lemma contains_eq_decide_mem (l : List String) (n : String) :
    l.contains n = decide (n ∈ l) := by
  simp [List.contains, List.elem_eq_mem]

lemma has_add (s : driverStorageClassesSet) (m n : String) :
    (s.add m).has n = (m == n || s.has n) := by
  simp only [driverStorageClassesSet.add, driverStorageClassesSet.has,
    contains_eq_decide_mem, decide_eq_true_eq]
  by_cases hmem : m ∈ s.classes
  · rw [if_pos hmem]
    by_cases he : m = n
    · subst he; simp [hmem]
    · simp [he]
  · rw [if_neg hmem]
    by_cases he : m = n
    · subst he; simp [List.mem_cons]
    · simp [he, List.mem_cons, Ne.symm he]

lemma has_remove (s : driverStorageClassesSet) (m n : String) :
    (s.remove m).has n = (!(m == n) && s.has n) := by
  simp only [driverStorageClassesSet.remove, driverStorageClassesSet.has,
    contains_eq_decide_mem]
  by_cases he : m = n
  · subst he
    simp [List.mem_filter]
  · simp only [List.mem_filter, bne_iff_ne, ne_eq]
    have hne : (m == n) = false := by simp [he]
    simp [hne, Ne.symm he]

lemma remove_of_not_has (s : driverStorageClassesSet) (n : String)
    (h : s.has n = false) : s.remove n = s := by
  simp only [driverStorageClassesSet.has, contains_eq_decide_mem,
    decide_eq_false_iff_not] at h
  simp only [driverStorageClassesSet.remove]
  have : s.classes.filter (fun m => m != n) = s.classes := by
    apply List.filter_eq_self.mpr
    intro a ha
    simp only [bne_iff_ne, ne_eq]
    intro hEq; subst hEq; exact h ha
  rw [this]

lemma add_idem (s : driverStorageClassesSet) (n : String) :
    (s.add n).add n = s.add n := by
  simp only [driverStorageClassesSet.add, contains_eq_decide_mem, decide_eq_true_eq]
  by_cases h : n ∈ s.classes
  · simp [h]
  · simp [h, List.mem_cons]

lemma remove_idem (s : driverStorageClassesSet) (n : String) :
    (s.remove n).remove n = s.remove n := by
  apply remove_of_not_has
  rw [has_remove]
  simp

/-! ### Storage-class objects and the watcher callbacks (server.go) -/

/-- The fields of `storagev1.StorageClass` read by the watcher callbacks. -/
structure StorageClass where
  Name : String
  Provisioner : String
  Annotations : List (String × String)
deriving Repr, DecidableEq

/-- `stc.Annotations["storageclass.kubernetes.io/is-default-class"]`:
a Go map lookup, returning the zero value `""` for an absent key. -/
def StorageClass.isDefaultClassAnn (stc : StorageClass) : String :=
  match stc.Annotations.lookup "storageclass.kubernetes.io/is-default-class" with
  | some v => v
  | none => ""

/-- `AddFunc` of the informer in `NewServer`.  The `Option` argument models the
`obj.(*storagev1.StorageClass)` type assertion: `none` is a payload of the
wrong kind, which is logged and ignored. -/
def addFunc (driverName : String) (s : driverStorageClassesSet)
    (obj : Option StorageClass) : driverStorageClassesSet :=
  match obj with
  | none => s
  | some stc =>
    if stc.Provisioner == driverName then
      let s1 := s.add stc.Name
      if stc.isDefaultClassAnn == "true" then s1.add "" else s1
    else s

/-- `DeleteFunc` of the informer in `NewServer`. -/
def deleteFunc (driverName : String) (s : driverStorageClassesSet)
    (obj : Option StorageClass) : driverStorageClassesSet :=
  match obj with
  | none => s
  | some stc =>
    if stc.Provisioner == driverName then
      let s1 := s.remove stc.Name
      if stc.isDefaultClassAnn == "true" then s1.remove "" else s1
    else s

/-- `UpdateFunc` of the informer in `NewServer`: only the new object is
inspected; a non-matching provisioner falls through with no cache change. -/
def updateFunc (driverName : String) (s : driverStorageClassesSet)
    (_oldo newo : Option StorageClass) : driverStorageClassesSet :=
  match newo with
  | none => s
  | some newstc =>
    if newstc.Provisioner == driverName then
      let s1 := s.add newstc.Name
      if newstc.isDefaultClassAnn == "true" then s1.add "" else s1
    else s

/-- A watch event delivered to the informer handler. -/
inductive Event where
  | addEv (obj : Option StorageClass)
  | updateEv (oldo newo : Option StorageClass)
  | deleteEv (obj : Option StorageClass)
deriving Repr, DecidableEq

/-- Dispatch of one event to the matching callback. -/
def processEvent (driverName : String) (s : driverStorageClassesSet) :
    Event → driverStorageClassesSet
  | .addEv obj => addFunc driverName s obj
  | .updateEv oldo newo => updateFunc driverName s oldo newo
  | .deleteEv obj => deleteFunc driverName s obj

/-- The cache after a finite trace of watch events. -/
def processEvents (driverName : String) (s : driverStorageClassesSet)
    (evs : List Event) : driverStorageClassesSet :=
  evs.foldl (processEvent driverName) s

/-- An event that is a delete of a well-typed storage class whose provisioner
is the driver — the only kind of event whose callback removes cache entries. -/
def isDriverDelete (driverName : String) : Event → Bool
  | .deleteEv (some stc) => stc.Provisioner == driverName
  | _ => false

/-! ### Pods, admission review envelopes and the HTTP handler (server.go) -/

/-- The fields of `corev1.Pod` the handler touches: the namespace it
overwrites, and the scheduling constraints inspected by the readiness-label
test (node selector as an association list, plus the set of label keys
referenced by node-affinity terms). -/
structure Pod where
  Name : String
  Namespace : String
  NodeSelector : List (String × String)
  AffinityKeys : List String
deriving Repr, DecidableEq

/-- `admissionv1.AdmissionRequest`, restricted to the fields the handler
reads.  `Object` is the result of `json.Unmarshal` of `Request.Object.Raw`
into a `corev1.Pod`: `none` models a decode error. -/
structure AdmissionRequest where
  UID : String
  Operation : String
  Namespace : String
  Object : Option Pod
deriving Repr, DecidableEq

/-- `admissionv1.AdmissionResponse`, restricted to the fields the handler
writes. -/
structure AdmissionResponse where
  UID : String
  Allowed : Bool
  PatchType : Option String
  Patch : Option String
deriving Repr, DecidableEq

/-- `admissionv1.AdmissionReview`: the envelope.  `Request` is a pointer in
Go (`*AdmissionRequest`), hence an `Option` here. -/
structure AdmissionReview where
  TypeMeta : String
  Request : Option AdmissionRequest
  Response : Option AdmissionResponse
deriving Repr, DecidableEq

/-- An inbound HTTP request as the handler observes it: the method, and the
result of `json.NewDecoder(r.Body).Decode(&admrev)` (`none` is a decode
error). -/
structure Request where
  method : String
  body : Option AdmissionReview
deriving Repr, DecidableEq

/-- What one call of the handler does at the HTTP boundary: write a response
with a status code and an optional review body, or panic (a nil-pointer
dereference). -/
inductive Outcome where
  | response (status : Nat) (body : Option AdmissionReview)
  | panicked
deriving Repr, DecidableEq

/-- The status code of an outcome, when one was written. -/
def Outcome.status : Outcome → Option Nat
  | .response s _ => some s
  | .panicked => none

/-- The `handler` struct of server.go, restricted to the fields the request
path reads (the Kubernetes client is folded into the volume predicate the
handler is parameterised by). -/
structure handler where
  driverReadyLabel : String
  driverReadySelectorPodPatch : String
  driverName : String
  driverStorageClasses : driverStorageClassesSet
deriving Repr, DecidableEq

/-- The decision step of `handleInjectDriverReadySelector` (server.go lines
160–175): build an allow response carrying the request UID, then attach the
pre-computed patch exactly when the pod lacks the readiness preference and
has a csi-gcs volume.  `hasLabelPred` and `hasVolPred` stand for
`podHasDriverReadyLabelSelectorOrAffinity` and `podHasCsiGCSVolume`, which
live outside the embedded sources. -/
def decideAdmission (hasLabelPred : Pod → String → Bool)
    (hasVolPred : Pod → String → driverStorageClassesSet → Bool)
    (h : handler) (uid : String) (pod : Pod) : AdmissionResponse :=
  let admresp : AdmissionResponse :=
    { UID := uid, Allowed := true, PatchType := none, Patch := none }
  if hasLabelPred pod h.driverReadyLabel then
    admresp
  else
    if hasVolPred pod h.driverName h.driverStorageClasses then
      { admresp with
          PatchType := some "JSONPatch",
          Patch := some h.driverReadySelectorPodPatch }
    else
      admresp

/-- `handleInjectDriverReadySelector` (server.go lines 131–182).  Returns the
HTTP outcome together with the handler's cache, which the request path only
ever reads.  `json.Marshal` of the response is modelled as always
succeeding, so the 500 encode-failure branch of `jsonOKResponse` does not
appear. -/
def handleInjectDriverReadySelector (hasLabelPred : Pod → String → Bool)
    (hasVolPred : Pod → String → driverStorageClassesSet → Bool)
    (h : handler) (r : Request) : Outcome × driverStorageClassesSet :=
  if r.method != "POST" then
    (.response 405 none, h.driverStorageClasses)
  else
    match r.body with
    | none => (.response 400 none, h.driverStorageClasses)
    | some admrev =>
      match admrev.Request with
      | none => (.panicked, h.driverStorageClasses)
      | some req =>
        if req.Operation != "CREATE" then
          (.response 400 none, h.driverStorageClasses)
        else
          match req.Object with
          | none => (.response 400 none, h.driverStorageClasses)
          | some pod0 =>
            let pod := { pod0 with Namespace := req.Namespace }
            let admresp := decideAdmission hasLabelPred hasVolPred h req.UID pod
            (.response 200
              (some { TypeMeta := admrev.TypeMeta, Request := none,
                      Response := some admresp }),
             h.driverStorageClasses)

/-- Modelled from the spec: `podHasDriverReadyLabelSelectorOrAffinity` is not
among the embedded sources; per the spec it tests whether "the pod
specification already expresses a node-selector or node-affinity term
referencing the Readiness Label". -/
def podHasDriverReadyLabelSelectorOrAffinity (pod : Pod) (label : String) : Bool :=
  (pod.NodeSelector.lookup label).isSome || pod.AffinityKeys.contains label

/-- The effect of the pre-computed readiness patch (a single JSON-Patch `add`
at `/spec/nodeSelector/<escaped label>` with value `"true"`): set the
readiness label key in the pod's node selector. -/
def applyReadinessPatch (label : String) (pod : Pod) : Pod :=
  { pod with
      NodeSelector :=
        (label, "true") :: pod.NodeSelector.filter (fun kv => kv.1 != label) }

/-- Apply an admission response to the pod it was decided for: when a patch
is attached it is the readiness patch, otherwise the pod is unchanged. -/
def applyDecision (label : String) (pod : Pod) (resp : AdmissionResponse) : Pod :=
  if resp.Patch.isSome then applyReadinessPatch label pod else pod

/-! ### Operation sequences on the cache -/

/-- One mutation of the membership cache. -/
inductive CacheOp where
  | addOp (n : String)
  | removeOp (n : String)
deriving Repr, DecidableEq

/-- Apply one cache operation. -/
def applyOp (s : driverStorageClassesSet) : CacheOp → driverStorageClassesSet
  | .addOp n => s.add n
  | .removeOp n => s.remove n

/-- Apply a sequence of cache operations in order. -/
def applyOps (s : driverStorageClassesSet) (ops : List CacheOp) :
    driverStorageClassesSet :=
  ops.foldl applyOp s

/-- Whether an operation mentions the given name. -/
def CacheOp.mentionsName : CacheOp → String → Bool
  | .addOp m, n => m == n
  | .removeOp m, n => m == n

/-- Whether an operation is an add. -/
def CacheOp.isAdd : CacheOp → Bool
  | .addOp _ => true
  | .removeOp _ => false

/-- The last operation in the sequence that mentions the given name. -/
def lastOpFor : List CacheOp → String → Option CacheOp
  | [], _ => none
  | op :: rest, n =>
    match lastOpFor rest n with
    | some o => some o
    | none => if op.mentionsName n then some op else none

/-- Whether the last operation mentioning the name is an add (false when no
operation mentions it). -/
def lastOpIsAdd (ops : List CacheOp) (n : String) : Bool :=
  match lastOpFor ops n with
  | some o => o.isAdd
  | none => false

/-! ### Concrete fixtures used by witnesses and counterexamples -/

def predFalse : Pod → String → Bool := fun _ _ => false

def volTrue : Pod → String → driverStorageClassesSet → Bool := fun _ _ _ => true

def volFalse : Pod → String → driverStorageClassesSet → Bool := fun _ _ _ => false

def hEx : handler :=
  ⟨"gcs.csi.ofek.dev/driver-ready", "patchdoc", "gcs.csi.ofek.dev", emptySet⟩

def podEx : Pod := ⟨"p", "", [], []⟩

def podLbl : Pod := ⟨"q", "", [("gcs.csi.ofek.dev/driver-ready", "true")], []⟩

def getReq : Request := ⟨"GET", none⟩

def postReqEx : Request :=
  ⟨"POST", some ⟨"v1", some ⟨"uid1", "CREATE", "default", some podEx⟩, none⟩⟩

def badBodyReq : Request := ⟨"POST", none⟩

def nilRequestReq : Request := ⟨"POST", some ⟨"v1", none, none⟩⟩

def stcEx : StorageClass :=
  ⟨"fast", "gcs.csi.ofek.dev", [("storageclass.kubernetes.io/is-default-class", "true")]⟩

def stcOther : StorageClass := ⟨"fast", "other.example", []⟩

def sEx : driverStorageClassesSet := ⟨["a", "b"]⟩

def opsEx : List CacheOp :=
  [CacheOp.addOp ("a"), CacheOp.removeOp ("a"), CacheOp.addOp ("b")]

def evsEx : List Event :=
  [Event.deleteEv (some stcOther), Event.updateEv none (some stcOther), Event.addEv none]

/-! ### Helper lemmas -/

lemma update_eq_add (d : String) (s : driverStorageClassesSet)
    (oldo obj : Option StorageClass) :
    updateFunc d s oldo obj = addFunc d s obj := by
  cases obj <;> rfl

lemma addFunc_preserves_has (d : String) (s : driverStorageClassesSet)
    (obj : Option StorageClass) (n : String) (hmem : s.has n = true) :
    (addFunc d s obj).has n = true := by
  cases obj with
  | none => exact hmem
  | some stc =>
    cases hp : (stc.Provisioner == d) with
    | false => simpa [addFunc, hp] using hmem
    | true =>
      cases ha : (stc.isDefaultClassAnn == "true") <;>
        simp [addFunc, hp, ha, has_add, hmem]

lemma applyOp_has (s : driverStorageClassesSet) (op : CacheOp) (n : String) :
    (applyOp s op).has n =
      (if op.mentionsName n then op.isAdd else s.has n) := by
  cases op with
  | addOp m =>
    cases hmn : (m == n) <;>
      simp [applyOp, CacheOp.mentionsName, CacheOp.isAdd, has_add, hmn]
  | removeOp m =>
    cases hmn : (m == n) <;>
      simp [applyOp, CacheOp.mentionsName, CacheOp.isAdd, has_remove, hmn]

lemma applyOps_has (ops : List CacheOp) (s : driverStorageClassesSet) (n : String) :
    (applyOps s ops).has n =
      (match lastOpFor ops n with
       | some o => o.isAdd
       | none => s.has n) := by
  induction ops generalizing s with
  | nil => rfl
  | cons op rest ih =>
    have h1 : applyOps s (op :: rest) = applyOps (applyOp s op) rest := rfl
    rw [h1, ih]
    simp only [lastOpFor]
    cases hl : lastOpFor rest n with
    | some o => simp
    | none =>
      rw [applyOp_has]
      cases hm : op.mentionsName n <;> simp [hm]

lemma patched_pod_has_label (label : String) (p : Pod) :
    podHasDriverReadyLabelSelectorOrAffinity (applyReadinessPatch label p) label = true := by
  simp [podHasDriverReadyLabelSelectorOrAffinity, applyReadinessPatch, List.lookup]

lemma processEvent_preserves_has (d : String) (s : driverStorageClassesSet)
    (ev : Event) (n : String) (hnd : isDriverDelete d ev = false)
    (hmem : s.has n = true) : (processEvent d s ev).has n = true := by
  cases ev with
  | addEv obj => exact addFunc_preserves_has d s obj n hmem
  | updateEv oldo newo =>
    show (updateFunc d s oldo newo).has n = true
    rw [update_eq_add]
    exact addFunc_preserves_has d s newo n hmem
  | deleteEv obj =>
    cases obj with
    | none => exact hmem
    | some stc =>
      have hp : (stc.Provisioner == d) = false := by
        simpa [isDriverDelete] using hnd
      show (deleteFunc d s (some stc)).has n = true
      simpa [deleteFunc, hp] using hmem

/-! ### Claim theorems -/

/-- C1: every admission request that reaches the decision step (POST,
envelope decoded, operation is create, pod decoded) yields a 200 response
whose admission response has `Allowed = true` and echoes the request UID;
the only variable is whether the pre-computed readiness patch and the
JSON-patch type are attached. -/
theorem C1_decision_always_allows
    (hL : Pod → String → Bool)
    (hV : Pod → String → driverStorageClassesSet → Bool)
    (h : handler) (r : Request) (admrev : AdmissionReview)
    (req : AdmissionRequest) (pod : Pod)
    (hm : r.method = "POST") (hb : r.body = some admrev)
    (hr : admrev.Request = some req) (hop : req.Operation = "CREATE")
    (ho : req.Object = some pod) :
    ((handleInjectDriverReadySelector hL hV h r).1 =
      Outcome.response 200 (some
        { TypeMeta := admrev.TypeMeta, Request := none,
          Response := some (decideAdmission hL hV h req.UID
            { pod with Namespace := req.Namespace }) })) ∧
    (decideAdmission hL hV h req.UID { pod with Namespace := req.Namespace }).Allowed
      = true ∧
    (decideAdmission hL hV h req.UID { pod with Namespace := req.Namespace }).UID
      = req.UID ∧
    (((decideAdmission hL hV h req.UID { pod with Namespace := req.Namespace }).Patch
        = none ∧
      (decideAdmission hL hV h req.UID { pod with Namespace := req.Namespace }).PatchType
        = none) ∨
     ((decideAdmission hL hV h req.UID { pod with Namespace := req.Namespace }).Patch
        = some h.driverReadySelectorPodPatch ∧
      (decideAdmission hL hV h req.UID { pod with Namespace := req.Namespace }).PatchType
        = some "JSONPatch")) := by
  have hbeq : (r.method != "POST") = false := by simp [hm]
  have hopeq : (req.Operation != "CREATE") = false := by simp [hop]
  refine ⟨?_, ?_, ?_, ?_⟩
  · simp [handleInjectDriverReadySelector, hbeq, hb, hr, hopeq, ho]
  · by_cases h1 : hL { pod with Namespace := req.Namespace } h.driverReadyLabel <;>
      by_cases h2 : hV { pod with Namespace := req.Namespace } h.driverName
        h.driverStorageClasses <;>
      simp [decideAdmission, h1, h2]
  · by_cases h1 : hL { pod with Namespace := req.Namespace } h.driverReadyLabel <;>
      by_cases h2 : hV { pod with Namespace := req.Namespace } h.driverName
        h.driverStorageClasses <;>
      simp [decideAdmission, h1, h2]
  · by_cases h1 : hL { pod with Namespace := req.Namespace } h.driverReadyLabel
    · left; simp [decideAdmission, h1]
    · by_cases h2 : hV { pod with Namespace := req.Namespace } h.driverName
        h.driverStorageClasses
      · right; simp [decideAdmission, h1, h2]
      · left; simp [decideAdmission, h1, h2]

/-- Witness for C1 at a concrete request. -/
theorem C1_witness :
    ((handleInjectDriverReadySelector predFalse volTrue hEx postReqEx).1 =
      Outcome.response 200 (some
        { TypeMeta := "v1", Request := none,
          Response := some (decideAdmission predFalse volTrue hEx "uid1"
            { podEx with Namespace := "default" }) })) ∧
    (decideAdmission predFalse volTrue hEx "uid1"
      { podEx with Namespace := "default" }).Allowed = true ∧
    (decideAdmission predFalse volTrue hEx "uid1"
      { podEx with Namespace := "default" }).UID = "uid1" ∧
    (((decideAdmission predFalse volTrue hEx "uid1"
        { podEx with Namespace := "default" }).Patch = none ∧
      (decideAdmission predFalse volTrue hEx "uid1"
        { podEx with Namespace := "default" }).PatchType = none) ∨
     ((decideAdmission predFalse volTrue hEx "uid1"
        { podEx with Namespace := "default" }).Patch
        = some hEx.driverReadySelectorPodPatch ∧
      (decideAdmission predFalse volTrue hEx "uid1"
        { podEx with Namespace := "default" }).PatchType = some "JSONPatch")) :=
  C1_decision_always_allows predFalse volTrue hEx postReqEx
    ⟨"v1", some ⟨"uid1", "CREATE", "default", some podEx⟩, none⟩
    ⟨"uid1", "CREATE", "default", some podEx⟩ podEx rfl rfl rfl rfl rfl

/-- C2: a pod whose specification already expresses a node-selector or
node-affinity term referencing the readiness label receives no patch,
regardless of its volumes and of the cache state (the volume predicate is
universally quantified); moreover applying the decision to the pod that
results from applying a previous decision always yields no patch, so
double invocation is a no-op. -/
theorem C2_already_labelled_not_patched
    (hV : Pod → String → driverStorageClassesSet → Bool)
    (h : handler) (uid : String) (pod : Pod)
    (hl : podHasDriverReadyLabelSelectorOrAffinity pod h.driverReadyLabel = true) :
    ((decideAdmission podHasDriverReadyLabelSelectorOrAffinity hV h uid pod).Patch
       = none ∧
     (decideAdmission podHasDriverReadyLabelSelectorOrAffinity hV h uid pod).PatchType
       = none) ∧
    ∀ p : Pod,
      (decideAdmission podHasDriverReadyLabelSelectorOrAffinity hV h uid
        (applyDecision h.driverReadyLabel p
          (decideAdmission podHasDriverReadyLabelSelectorOrAffinity hV h uid p))).Patch
        = none := by
  constructor
  · constructor <;> simp [decideAdmission, hl]
  · intro p
    by_cases h1 : podHasDriverReadyLabelSelectorOrAffinity p h.driverReadyLabel
    · simp [decideAdmission, h1, applyDecision]
    · by_cases h2 : hV p h.driverName h.driverStorageClasses
      · have hfst : (decideAdmission podHasDriverReadyLabelSelectorOrAffinity hV h uid
            p).Patch = some h.driverReadySelectorPodPatch := by
          simp [decideAdmission, h1, h2]
        simp only [applyDecision, hfst, Option.isSome_some, if_pos]
        simp [decideAdmission, patched_pod_has_label]
      · have hfst : (decideAdmission podHasDriverReadyLabelSelectorOrAffinity hV h uid
            p).Patch = none := by
          simp [decideAdmission, h1, h2]
        simp [applyDecision, hfst, decideAdmission, h1, h2]

/-- Witness for C2 at a concrete pod already carrying the readiness label in
its node selector. -/
theorem C2_witness :
    ((decideAdmission podHasDriverReadyLabelSelectorOrAffinity volTrue hEx "u" podLbl).Patch
       = none ∧
     (decideAdmission podHasDriverReadyLabelSelectorOrAffinity volTrue hEx "u" podLbl).PatchType
       = none) ∧
    ∀ p : Pod,
      (decideAdmission podHasDriverReadyLabelSelectorOrAffinity volTrue hEx "u"
        (applyDecision hEx.driverReadyLabel p
          (decideAdmission podHasDriverReadyLabelSelectorOrAffinity volTrue hEx "u" p))).Patch
        = none :=
  C2_already_labelled_not_patched volTrue hEx "u" podLbl (by decide)

/-- C4: an update event whose new storage-class object has a provisioner
different from the driver name leaves the membership cache entirely
unchanged. -/
theorem C4_update_nonmatching_no_removal
    (driverName : String) (s : driverStorageClassesSet)
    (oldo : Option StorageClass) (newstc : StorageClass)
    (hp : newstc.Provisioner ≠ driverName) :
    updateFunc driverName s oldo (some newstc) = s := by
  have hpeq : (newstc.Provisioner == driverName) = false := by simp [hp]
  simp [updateFunc, hpeq]

/-- Witness for C4: an update for a foreign provisioner leaves a populated
cache as it was. -/
theorem C4_witness :
    updateFunc "gcs.csi.ofek.dev" sEx none (some stcOther) = sEx :=
  C4_update_nonmatching_no_removal "gcs.csi.ofek.dev" sEx none stcOther (by decide)

/-- C6 counterexample: a GET request to the admission endpoint is answered
with status 405 (method not allowed), not 400 as claimed. -/
theorem C6_counterexample :
    getReq.method ≠ "POST" ∧
    (handleInjectDriverReadySelector predFalse volFalse hEx getReq).1.status
      ≠ some 400 ∧
    (handleInjectDriverReadySelector predFalse volFalse hEx getReq).1.status
      = some 405 := by
  refine ⟨by decide, by decide, by decide⟩

/-- C6 amended: every request to the admission endpoint whose method is not
POST is answered with status 405 (`http.StatusMethodNotAllowed`) and no
review body. -/
theorem C6_non_post_rejected
    (hL : Pod → String → Bool)
    (hV : Pod → String → driverStorageClassesSet → Bool)
    (h : handler) (r : Request) (hm : r.method ≠ "POST") :
    (handleInjectDriverReadySelector hL hV h r).1 = Outcome.response 405 none := by
  have hbeq : (r.method != "POST") = true := by simp [hm]
  simp [handleInjectDriverReadySelector, hbeq]

/-- Witness for the amended C6 at a concrete GET request. -/
theorem C6_witness :
    (handleInjectDriverReadySelector predFalse volFalse hEx getReq).1 =
      Outcome.response 405 none :=
  C6_non_post_rejected predFalse volFalse hEx getReq (by decide)

/-- C7: a POST whose body fails to decode, or whose decoded envelope carries
a request with a non-create operation or an undecodable pod object, is
answered with status 400, and the membership cache is returned unchanged. -/
theorem C7_bad_request_rejected_cache_unchanged
    (hL : Pod → String → Bool)
    (hV : Pod → String → driverStorageClassesSet → Bool)
    (h : handler) (r : Request) (hm : r.method = "POST")
    (hbad : r.body = none ∨
      ∃ admrev req, r.body = some admrev ∧ admrev.Request = some req ∧
        (req.Operation ≠ "CREATE" ∨ req.Object = none)) :
    (handleInjectDriverReadySelector hL hV h r).1.status = some 400 ∧
    (handleInjectDriverReadySelector hL hV h r).2 = h.driverStorageClasses := by
  have hbeq : (r.method != "POST") = false := by simp [hm]
  rcases hbad with hb | ⟨admrev, req, hb, hr, hcase⟩
  · constructor <;> simp [handleInjectDriverReadySelector, hbeq, hb, Outcome.status]
  · rcases hcase with hop | ho
    · have hopeq : (req.Operation != "CREATE") = true := by simp [hop]
      constructor <;>
        simp [handleInjectDriverReadySelector, hbeq, hb, hr, hopeq, Outcome.status]
    · have hopcases : (req.Operation != "CREATE") = true ∨
          (req.Operation != "CREATE") = false := by
        cases (req.Operation != "CREATE") <;> simp
      rcases hopcases with hopeq | hopeq <;>
        constructor <;>
          simp [handleInjectDriverReadySelector, hbeq, hb, hr, hopeq, ho, Outcome.status]

/-- Witness for C7 at a concrete POST with an undecodable body. -/
theorem C7_witness :
    (handleInjectDriverReadySelector predFalse volFalse hEx badBodyReq).1.status
      = some 400 ∧
    (handleInjectDriverReadySelector predFalse volFalse hEx badBodyReq).2
      = hEx.driverStorageClasses :=
  C7_bad_request_rejected_cache_unchanged predFalse volFalse hEx badBodyReq rfl
    (Or.inl rfl)

/-- C9: the handler panics (nil-pointer dereference reading the operation)
exactly on the POST requests whose body decodes to an envelope with no
request object; on every other request it writes an HTTP response. -/
theorem C9_nil_request_panics
    (hL : Pod → String → Bool)
    (hV : Pod → String → driverStorageClassesSet → Bool)
    (h : handler) (r : Request) :
    (handleInjectDriverReadySelector hL hV h r).1 = Outcome.panicked ↔
      (r.method = "POST" ∧ ∃ admrev, r.body = some admrev ∧ admrev.Request = none) := by
  by_cases hm : r.method = "POST"
  · have hbeq : (r.method != "POST") = false := by simp [hm]
    cases hb : r.body with
    | none => simp [handleInjectDriverReadySelector, hbeq, hb, hm]
    | some admrev =>
      cases hr : admrev.Request with
      | none => simp [handleInjectDriverReadySelector, hbeq, hb, hr, hm]
      | some req =>
        have hopcases : (req.Operation != "CREATE") = true ∨
            (req.Operation != "CREATE") = false := by
          cases (req.Operation != "CREATE") <;> simp
        rcases hopcases with hopeq | hopeq
        · simp [handleInjectDriverReadySelector, hbeq, hb, hr, hopeq, hm]
        · cases ho : req.Object with
          | none => simp [handleInjectDriverReadySelector, hbeq, hb, hr, hopeq, ho, hm]
          | some pod0 =>
            simp [handleInjectDriverReadySelector, hbeq, hb, hr, hopeq, ho, hm]
  · have hbeq : (r.method != "POST") = true := by simp [hm]
    simp [handleInjectDriverReadySelector, hbeq, hm]

/-- Witness for C9 at a concrete POST whose decoded envelope has no request. -/
theorem C9_witness :
    (handleInjectDriverReadySelector predFalse volFalse hEx nilRequestReq).1 =
      Outcome.panicked :=
  (C9_nil_request_panics predFalse volFalse hEx nilRequestReq).mpr
    ⟨rfl, ⟨"v1", none, none⟩, rfl, rfl⟩

/-- C3: for add and update events with matching provisioner the watcher
inserts the class name, and the default-class sentinel is present afterwards
exactly when the annotation is "true" or it was already present; for delete
events with matching provisioner it removes the class name, and the sentinel
remains exactly when the annotation is not "true" and it was present. -/
theorem C3_watcher_event_semantics
    (driverName : String) (s : driverStorageClassesSet)
    (oldo : Option StorageClass) (stc : StorageClass)
    (hp : stc.Provisioner = driverName) (hn : stc.Name ≠ "") :
    ((addFunc driverName s (some stc)).has stc.Name = true ∧
      ((addFunc driverName s (some stc)).has ("") = true ↔
        stc.isDefaultClassAnn = "true" ∨ s.has ("") = true)) ∧
    ((updateFunc driverName s oldo (some stc)).has stc.Name = true ∧
      ((updateFunc driverName s oldo (some stc)).has ("") = true ↔
        stc.isDefaultClassAnn = "true" ∨ s.has ("") = true)) ∧
    ((deleteFunc driverName s (some stc)).has stc.Name = false ∧
      ((deleteFunc driverName s (some stc)).has ("") = true ↔
        stc.isDefaultClassAnn ≠ "true" ∧ s.has ("") = true)) := by
  have hpeq : (stc.Provisioner == driverName) = true := by simp [hp]
  have h1 : (stc.Name == ("")) = false := beq_eq_false_iff_ne.mpr hn
  have hadd1 : (addFunc driverName s (some stc)).has stc.Name = true := by
    cases ha : (stc.isDefaultClassAnn == "true") <;>
      simp [addFunc, hpeq, ha, has_add]
  have hadd2 : ((addFunc driverName s (some stc)).has ("") = true ↔
      stc.isDefaultClassAnn = "true" ∨ s.has ("") = true) := by
    cases ha : (stc.isDefaultClassAnn == "true")
    · have haP : stc.isDefaultClassAnn ≠ "true" := by simpa using ha
      simp [addFunc, hpeq, ha, has_add, h1, haP]
    · have haP : stc.isDefaultClassAnn = "true" := by simpa using ha
      simp [addFunc, hpeq, ha, has_add, haP]
  refine ⟨⟨hadd1, hadd2⟩, ⟨?_, ?_⟩, ?_, ?_⟩
  · rw [update_eq_add]; exact hadd1
  · rw [update_eq_add]; exact hadd2
  · cases ha : (stc.isDefaultClassAnn == "true") <;>
      simp [deleteFunc, hpeq, ha, has_remove]
  · cases ha : (stc.isDefaultClassAnn == "true")
    · have haP : stc.isDefaultClassAnn ≠ "true" := by simpa using ha
      simp [deleteFunc, hpeq, ha, has_remove, h1, haP]
    · have haP : stc.isDefaultClassAnn = "true" := by simpa using ha
      simp [deleteFunc, hpeq, ha, has_remove, haP]

/-- Witness for C3 at a concrete default-class storage class over the empty
cache. -/
theorem C3_witness :
    ((addFunc "gcs.csi.ofek.dev" emptySet (some stcEx)).has stcEx.Name = true ∧
      ((addFunc "gcs.csi.ofek.dev" emptySet (some stcEx)).has ("") = true ↔
        stcEx.isDefaultClassAnn = "true" ∨ emptySet.has ("") = true)) ∧
    ((updateFunc "gcs.csi.ofek.dev" emptySet none (some stcEx)).has stcEx.Name = true ∧
      ((updateFunc "gcs.csi.ofek.dev" emptySet none (some stcEx)).has ("") = true ↔
        stcEx.isDefaultClassAnn = "true" ∨ emptySet.has ("") = true)) ∧
    ((deleteFunc "gcs.csi.ofek.dev" emptySet (some stcEx)).has stcEx.Name = false ∧
      ((deleteFunc "gcs.csi.ofek.dev" emptySet (some stcEx)).has ("") = true ↔
        stcEx.isDefaultClassAnn ≠ "true" ∧ emptySet.has ("") = true)) :=
  C3_watcher_event_semantics "gcs.csi.ofek.dev" emptySet none stcEx rfl (by decide)

/-- C5: over any finite sequence of add/remove operations applied to the
initially empty cache, membership of a name equals "the last operation
mentioning that name is an add"; add and remove are idempotent, and removing
an absent name is a no-op. -/
theorem C5_sequence_semantics
    (ops : List CacheOp) (n : String) (s : driverStorageClassesSet) :
    ((applyOps emptySet ops).has n = lastOpIsAdd ops n) ∧
    (s.add n).add n = s.add n ∧
    (s.remove n).remove n = s.remove n ∧
    (s.has n = false → s.remove n = s) := by
  refine ⟨?_, add_idem s n, remove_idem s n, remove_of_not_has s n⟩
  rw [applyOps_has]
  unfold lastOpIsAdd
  cases lastOpFor ops n <;> rfl

/-- Witness for C5 at a concrete operation sequence and an absent name. -/
theorem C5_witness :
    (applyOps emptySet opsEx).has ("c") = lastOpIsAdd opsEx ("c") ∧
    sEx.remove ("c") = sEx :=
  ⟨(C5_sequence_semantics opsEx "c" sEx).1,
   (C5_sequence_semantics opsEx "c" sEx).2.2.2 (by decide)⟩

/-- C10: a delete event whose storage class has a non-matching provisioner
leaves the cache unchanged, and over any event trace containing no delete of
a driver-provisioned class, every cache entry survives. -/
theorem C10_stale_entry_never_removed (driverName : String) :
    (∀ (s : driverStorageClassesSet) (stc : StorageClass),
      stc.Provisioner ≠ driverName → deleteFunc driverName s (some stc) = s) ∧
    (∀ (evs : List Event) (s : driverStorageClassesSet) (n : String),
      s.has n = true →
      (∀ ev ∈ evs, isDriverDelete driverName ev = false) →
      (processEvents driverName s evs).has n = true) := by
  constructor
  · intro s stc hp
    have hpeq : (stc.Provisioner == driverName) = false := beq_eq_false_iff_ne.mpr hp
    simp [deleteFunc, hpeq]
  · intro evs
    induction evs with
    | nil => intro s n hmem _; exact hmem
    | cons ev rest ih =>
      intro s n hmem hall
      have hhd : isDriverDelete driverName ev = false :=
        hall ev (List.mem_cons_self ev rest)
      have htl : ∀ e ∈ rest, isDriverDelete driverName e = false :=
        fun e he => hall e (List.mem_cons_of_mem ev he)
      have hstep := processEvent_preserves_has driverName s ev n hhd hmem
      exact ih (processEvent driverName s ev) n hstep htl

/-- Witness for C10: a foreign-provisioner delete and a driver-delete-free
trace both keep the entry "a". -/
theorem C10_witness :
    deleteFunc "gcs.csi.ofek.dev" sEx (some stcOther) = sEx ∧
    (processEvents "gcs.csi.ofek.dev" sEx evsEx).has ("a") = true :=
  ⟨(C10_stale_entry_never_removed "gcs.csi.ofek.dev").1 sEx stcOther (by decide),
   (C10_stale_entry_never_removed "gcs.csi.ofek.dev").2 evsEx sEx "a" (by decide)
     (by decide)⟩

end CsiGcs
